import Mathlib

/-!
Verification development for the hok-viz text-to-state parser
(`src/parser.py`) and the small slice of the renderer
(`src/renderer.py`, `_draw_hero_card`) that the specification's claims
touch.

The Python code is shallowly embedded:

* strings are `List Char` (`String.data` at the boundary);
* Python `int` values arising from digit runs are `Nat`;
* numeric literals such as `"-30.0"` parsed by Python `float` are
  modelled exactly as rationals (`ℚ`, built with `mkRat` so that the
  kernel can evaluate them); the claims only compare such values for
  equality / against zero, where the binary-float rounding of CPython is
  irrelevant;
* fallible Python code (attribute errors, index errors, `float`'s
  `ValueError`) is modelled with the explicit result monad `PRes`;
* the regular expressions of `parser.py` are executed by a small
  backtracking matcher (`matchFromF` below) over a token list that
  transcribes each pattern; greedy `+`, lazy `.*?`, alternations and
  character classes behave as in CPython `re` (leftmost match, full
  backtracking).  The matcher takes a fuel argument so that it is
  structurally recursive and hence evaluates inside the kernel; the fuel
  passed by the wrappers always exceeds the length of the longest
  possible call chain (see the comment on `matchToks`), so exhaustion is
  unreachable.
-/

namespace HokViz

set_option maxRecDepth 100000

/-- Characters of a string literal. -/
def cs (s : String) : List Char := s.data

/-- Python error classes that the modelled code can raise. -/
inductive PyErr where
  | attributeError
  | indexError
  | valueError
deriving DecidableEq, Repr

/-- Result monad for the embedded Python: a value or a raised error. -/
inductive PRes (α : Type) where
  | ok : α → PRes α
  | err : PyErr → PRes α
deriving DecidableEq, Repr

/-- Monadic bind for `PRes`: errors propagate. -/
def PRes.bind {α β : Type} (r : PRes α) (f : α → PRes β) : PRes β :=
  match r with
  | .ok a => f a
  | .err e => .err e

/-- Python substring test `pat in s`. -/
def isSubstr (pat : List Char) : List Char → Bool
  | [] => pat.isPrefixOf []
  | c :: rest => pat.isPrefixOf (c :: rest) || isSubstr pat rest

/-- Sequential fold in `PRes`, modelling a Python `for` loop whose body
may raise. -/
def foldPM {σ α : Type} (f : σ → α → PRes σ) : σ → List α → PRes σ
  | s, [] => .ok s
  | s, a :: as =>
    match f s a with
    | .ok s' => foldPM f s' as
    | .err e => .err e

/-- Python `\s` / `str.strip()` whitespace (the characters relevant to
this code base; rare Unicode spaces other than U+3000 are omitted). -/
def pySpace (c : Char) : Bool :=
  c = ' ' || c = '\t' || c = '\n' || c = '\r' || c = '\x0b' || c = '\x0c' || c = '　'

/-- Remove characters satisfying `p` from the end of a list. -/
def pyStripEnd (p : Char → Bool) (s : List Char) : List Char :=
  (s.reverse.dropWhile p).reverse

/-- Python `str.strip(chars)`: drop characters satisfying `p` from both
ends. -/
def pyStrip (p : Char → Bool) (s : List Char) : List Char :=
  pyStripEnd p (s.dropWhile p)

/-- Python `str.strip()` (whitespace). -/
def pyStripWs (s : List Char) : List Char := pyStrip pySpace s

/-- First occurrence of `sep` in `s`: the part before it and the part
after it. -/
def splitAtSep (sep : List Char) : List Char → Option (List Char × List Char)
  | [] => none
  | c :: rest =>
    if sep.isPrefixOf (c :: rest) then some ([], (c :: rest).drop sep.length)
    else (splitAtSep sep rest).map (fun ab => (c :: ab.1, ab.2))

/-- Fueled worker for `pySplitStr`.  Each step removes at least
`sep.length ≥ 1` characters, so fuel `s.length + 1` never runs out. -/
def pySplitStrF : Nat → List Char → List Char → List (List Char)
  | 0, _, s => [s]
  | f + 1, sep, s =>
    match splitAtSep sep s with
    | none => [s]
    | some (a, b) => a :: pySplitStrF f sep b

/-- Python `str.split(sep)` for a non-empty separator (keeps empty
pieces, as Python does). -/
def pySplitStr (sep s : List Char) : List (List Char) :=
  pySplitStrF (s.length + 1) sep s

/-- Python `int` on a run of ASCII digits. -/
def pyInt (s : List Char) : Nat :=
  s.foldl (fun acc c => 10 * acc + (c.toNat - '0'.toNat)) 0

/-- Python `float` on a sign-free string drawn from the character class
`[\d.-]` (digits / dot / minus): accepted iff it has the shape
`digits [. digits]` with at least one digit somewhere; the exact decimal
value is returned as a rational. -/
def pyFloatPos (s : List Char) : Option ℚ :=
  let a := s.takeWhile Char.isDigit
  let r := s.dropWhile Char.isDigit
  match r with
  | [] => if a = [] then none else some (mkRat (pyInt a) 1)
  | '.' :: r2 =>
    let b := r2.takeWhile Char.isDigit
    let r3 := r2.dropWhile Char.isDigit
    if r3 = [] && !(a = [] && b = []) then
      some (mkRat (pyInt a * 10 ^ b.length + pyInt b) (10 ^ b.length))
    else none
  | _ => none

/-- Python `float` on a string drawn from `[\d.-]`: an optional leading
minus sign, then `pyFloatPos`.  `none` models the `ValueError` raise. -/
def pyFloat : List Char → Option ℚ
  | '-' :: rest => (pyFloatPos rest).map (fun q => -q)
  | s => pyFloatPos s

/-- Python `float(...)` as an effect: `ValueError` when the literal is
malformed. -/
def pyFloatE (s : List Char) : PRes ℚ :=
  match pyFloat s with
  | some q => .ok q
  | none => .err .valueError

/-- Python `lst[1]`: `IndexError` when the list has fewer than two
elements. -/
def pyIndex1 {α : Type} : List α → PRes α
  | _ :: x :: _ => .ok x
  | _ => .err .indexError

/-- Python `str.zfill(2)` on a digit run. -/
def zfill2 (s : List Char) : List Char :=
  if 2 ≤ s.length then s else List.replicate (2 - s.length) '0' ++ s

/-! ### Regex engine

Tokens of the (tiny) regex fragment `parser.py` uses.  A pattern is a
`List RTok`; each token consumes some characters:

* `lit l` — a literal;
* `alts cap opts` — an alternation of literals, tried in order
  (also used for one-character classes such as `[（\(]`);
* `plus cap p` — greedy `+` over the character class `p`, with full
  backtracking (longest run first);
* `lazyAny cap` — lazy `.*?` (any character except newline, shortest
  first);
* `ws` — greedy `\s*`.

`cap` marks capturing groups.
-/
inductive RTok where
  | lit (l : List Char)
  | alts (cap : Bool) (opts : List (List Char))
  | plus (cap : Bool) (p : Char → Bool)
  | lazyAny (cap : Bool)
  | ws

/-- Weight of a token, for the fuel bound. -/
def tokW : RTok → Nat
  | .lit _ => 1
  | .alts _ opts => opts.length + 1
  | .plus _ _ => 2
  | .lazyAny _ => 2
  | .ws => 2

/-- Weight of a pattern. -/
def toksW (ts : List RTok) : Nat := (ts.map tokW).sum

/-- Backtracking matcher.  On success it returns, for each token in
order, the number of characters that token consumed.  Every recursive
call strictly decreases `s.length + toksW toks`, so with fuel exceeding
that quantity the `0` case is unreachable. -/
def matchFromF : Nat → List RTok → List Char → Option (List Nat)
  | 0, _, _ => none
  | _ + 1, [], _ => some []
  | fuel + 1, .lit l :: rest, s =>
    if l.isPrefixOf s then (matchFromF fuel rest (s.drop l.length)).map (l.length :: ·)
    else none
  | _ + 1, .alts _ [] :: _, _ => none
  | fuel + 1, .alts cap (o :: os) :: rest, s =>
    match (if o.isPrefixOf s then
             (matchFromF fuel rest (s.drop o.length)).map (o.length :: ·)
           else none) with
    | some r => some r
    | none => matchFromF fuel (.alts cap os :: rest) s
  | fuel + 1, .plus cap p :: rest, s =>
    match s with
    | [] => none
    | c :: s' =>
      if p c then
        match matchFromF fuel (.plus cap p :: rest) s' with
        | some (k :: ks) => some ((k + 1) :: ks)
        | _ => (matchFromF fuel rest s').map (1 :: ·)
      else none
  | fuel + 1, .lazyAny cap :: rest, s =>
    match matchFromF fuel rest s with
    | some ks => some (0 :: ks)
    | none =>
      match s with
      | [] => none
      | c :: s' =>
        if c = '\n' then none
        else
          match matchFromF fuel (.lazyAny cap :: rest) s' with
          | some (k :: ks) => some ((k + 1) :: ks)
          | _ => none
  | fuel + 1, .ws :: rest, s =>
    match s with
    | c :: s' =>
      if pySpace c then
        match matchFromF fuel (.ws :: rest) s' with
        | some (k :: ks) => some ((k + 1) :: ks)
        | _ => (matchFromF fuel rest s).map (0 :: ·)
      else (matchFromF fuel rest s).map (0 :: ·)
    | [] => (matchFromF fuel rest []).map (0 :: ·)

/-- Match the pattern at the start of `s` (Python `re.match` position
semantics), with always-sufficient fuel. -/
def matchToks (toks : List RTok) (s : List Char) : Option (List Nat) :=
  matchFromF (s.length + toksW toks + 1) toks s

/-- Is this token a capturing group? -/
def isCapTok : RTok → Bool
  | .alts c _ => c
  | .plus c _ => c
  | .lazyAny c => c
  | _ => false

/-- Extract the captured substrings from the per-token lengths. -/
def capsOf : List RTok → List Nat → List Char → List (List Char)
  | t :: ts, k :: ks, s =>
    (if isCapTok t then [s.take k] else []) ++ capsOf ts ks (s.drop k)
  | _, _, _ => []

/-- Python `re.match(pat, s)`: anchored at position 0; on success the
list of captured groups (`group(i)` is entry `i - 1`). -/
def rematch (toks : List RTok) (s : List Char) : Option (List (List Char)) :=
  (matchToks toks s).map (fun ks => capsOf toks ks s)

/-- Python `re.search(pat, s)`: leftmost match; on success the captured
groups. -/
def research (toks : List RTok) : List Char → Option (List (List Char))
  | [] => (matchToks toks []).map (fun ks => capsOf toks ks [])
  | c :: s' =>
    match matchToks toks (c :: s') with
    | some ks => some (capsOf toks ks (c :: s'))
    | none => research toks s'

/-- Fueled worker for `refindall`; every step consumes at least one
character, so fuel `s.length + 1` never runs out. -/
def refindallF : Nat → List RTok → List Char → List (List (List Char))
  | 0, _, _ => []
  | f + 1, toks, s =>
    match matchToks toks s with
    | some ks => capsOf toks ks s :: refindallF f toks (s.drop (max ks.sum 1))
    | none =>
      match s with
      | [] => []
      | _ :: s' => refindallF f toks s'

/-- Python `re.findall`: all non-overlapping matches, left to right. -/
def refindall (toks : List RTok) (s : List Char) : List (List (List Char)) :=
  refindallF (s.length + 1) toks s

/-! ### Character classes used by the patterns -/

/-- Class `[\d.-]` -/
def numCls (c : Char) : Bool := c.isDigit || c = '.' || c = '-'

/-- Class `[^>]` -/
def notGt (c : Char) : Bool := c ≠ '>'

/-- Class `[^，]` -/
def notFwComma (c : Char) : Bool := c ≠ '，'

/-- Class `[^防御塔]` -/
def notFyt (c : Char) : Bool := !(c = '防' || c = '御' || c = '塔')

/-- Class `[^防御塔\d]` -/
def notFytD (c : Char) : Bool := !(c = '防' || c = '御' || c = '塔' || c.isDigit)

/-! ### The patterns of `parser.py`, transcribed token by token -/

/-- Pattern `(\d+)分(\d+)秒` (parse, 整体情况 branch). -/
def patTime : List RTok :=
  [.plus true Char.isDigit, .lit (cs "分"), .plus true Char.isDigit, .lit (cs "秒")]

/-- Pattern `\d+` (kill / gold extraction; `group()` is the digit run). -/
def patDigits : List RTok := [.plus true Char.isDigit]

/-- Pattern `<([^>]+)>` (hero tag, used with `re.match`). -/
def patHeroTag : List RTok := [.lit (cs "<"), .plus true notGt, .lit (cs ">")]

/-- Pattern `是(我方|敌方)([^，]+)` (hero role). -/
def patRole : List RTok :=
  [.lit (cs "是"), .alts true [cs "我方", cs "敌方"], .plus true notFwComma]

/-- Pattern `(\d+)级` (hero level). -/
def patLevel : List RTok := [.plus true Char.isDigit, .lit (cs "级")]

/-- Pattern `还有(\d+)秒复活` (respawn countdown). -/
def patRespawn : List RTok :=
  [.lit (cs "还有"), .plus true Char.isDigit, .lit (cs "秒复活")]

/-- Pattern `血量.*?（(\d+)%）` (hero hp). -/
def patHp : List RTok :=
  [.lit (cs "血量"), .lazyAny false, .lit (cs "（"), .plus true Char.isDigit, .lit (cs "%）")]

/-- Pattern `蓝量(\d+)%` (hero mana). -/
def patMana : List RTok := [.lit (cs "蓝量"), .plus true Char.isDigit, .lit (cs "%")]

/-- Pattern `坐标[（\(]([\d\.-]+)，([\d\.-]+)[）\)]` (coordinates; heroes and
monsters). -/
def patCoord : List RTok :=
  [.lit (cs "坐标"), .alts false [cs "（", cs "("], .plus true numCls,
   .lit (cs "，"), .plus true numCls, .alts false [cs "）", cs ")"]]

/-- Pattern `击杀：(\d+)，助攻：(\d+)，死亡：(\d+)` (KDA). -/
def patKda : List RTok :=
  [.lit (cs "击杀："), .plus true Char.isDigit, .lit (cs "，助攻："),
   .plus true Char.isDigit, .lit (cs "，死亡："), .plus true Char.isDigit]

/-- Pattern `当前经济：(\d+)` (hero gold). -/
def patGold : List RTok := [.lit (cs "当前经济："), .plus true Char.isDigit]

/-- Pattern `(\d+)秒后刷新` (monster respawn). -/
def patMonRespawn : List RTok := [.plus true Char.isDigit, .lit (cs "秒后刷新")]

/-- Pattern `血量(\d+)%` (monster hp). -/
def patMonHp : List RTok := [.lit (cs "血量"), .plus true Char.isDigit, .lit (cs "%")]

/-- Pattern `(我方|敌方)([^防御塔]+)防御塔被推到` (tower-segment ownership
context). -/
def patTowerCtx : List RTok :=
  [.alts true [cs "我方", cs "敌方"], .plus true notFyt, .lit (cs "防御塔被推到")]

/-- Pattern `(我方|敌方)([^防御塔]+)防御塔被推到(.*?)，.*?坐标[（\(]([\d\.-]+)，([\d\.-]+)[）\)].*?剩余血量(\d+)%`
(full tower record). -/
def patTowerFull : List RTok :=
  [.alts true [cs "我方", cs "敌方"], .plus true notFyt, .lit (cs "防御塔被推到"),
   .lazyAny true, .lit (cs "，"), .lazyAny false, .lit (cs "坐标"),
   .alts false [cs "（", cs "("], .plus true numCls, .lit (cs "，"),
   .plus true numCls, .alts false [cs "）", cs ")"], .lazyAny false,
   .lit (cs "剩余血量"), .plus true Char.isDigit, .lit (cs "%")]

/-- Pattern `最近的威胁兵线为(.*?)，.*?坐标[（\(]([\d\.-]+)，([\d\.-]+)[）\)].*?数量(\d+).*?血量(\d+)%`
(threatening minion wave). -/
def patMinion : List RTok :=
  [.lit (cs "最近的威胁兵线为"), .lazyAny true, .lit (cs "，"), .lazyAny false,
   .lit (cs "坐标"), .alts false [cs "（", cs "("], .plus true numCls,
   .lit (cs "，"), .plus true numCls, .alts false [cs "）", cs ")"],
   .lazyAny false, .lit (cs "数量"), .plus true Char.isDigit, .lazyAny false,
   .lit (cs "血量"), .plus true Char.isDigit, .lit (cs "%")]

/-- Pattern `(蓝方|红方)([^防御塔\d]+)(一塔|二塔|高地塔)[（\(]([\d\.-]+)[,，]\s*([\d\.-]+)[）\)]`
(static tower coordinates, first pass, used with `re.findall`). -/
def patStatic : List RTok :=
  [.alts true [cs "蓝方", cs "红方"], .plus true notFytD,
   .alts true [cs "一塔", cs "二塔", cs "高地塔"], .alts false [cs "（", cs "("],
   .plus true numCls, .alts false [cs ",", cs "，"], .ws, .plus true numCls,
   .alts false [cs "）", cs ")"]]

/-! ### Data model (`parser.py` dataclasses)

Field names and defaults are transcribed from the `@dataclass`
definitions.  Note that `HeroStatus` has *no* visibility field — this is
exactly what claim C2 is about. -/

/-- Dataclass `HeroStatus` (parser.py lines 5-21). -/
structure HeroStatus where
  name : List Char
  player_name : List Char
  team : List Char
  role : List Char
  level : Nat
  hp_percent : ℚ
  mana_percent : ℚ
  is_dead : Bool := false
  respawn_time : Nat := 0
  position : Option (ℚ × ℚ) := none
  kda : Nat × Nat × Nat := (0, 0, 0)
  gold : Nat := 0
  items : List (List Char) := []
  has_ult : Bool := false
  buffs : List (List Char) := []
deriving DecidableEq, Repr

/-- Dataclass `TowerStatus` (parser.py lines 23-30). -/
structure TowerStatus where
  team : List Char
  lane : List Char
  tower_type : List Char
  hp_percent : ℚ
  position : ℚ × ℚ
  is_destroyed : Bool := false
deriving DecidableEq, Repr

/-- Dataclass `MinionStatus` (parser.py lines 32-39). -/
structure MinionStatus where
  team : List Char
  lane : List Char
  position : ℚ × ℚ
  count : Nat
  hp_percent : ℚ
  minion_type : List Char
deriving DecidableEq, Repr

/-- Dataclass `MonsterStatus` (parser.py lines 41-48); the Python field `exists`
is spelled `exists_flag` because `exists` is a Lean keyword. -/
structure MonsterStatus where
  name : List Char
  position : ℚ × ℚ
  hp_percent : ℚ
  exists_flag : Bool
  description : List Char := []
  respawn_time : Option Nat := none
deriving DecidableEq, Repr

/-- Dataclass `MatchState` (parser.py lines 50-60). -/
structure MatchState where
  time_str : List Char
  blue_kills : Nat
  red_kills : Nat
  blue_gold : Nat
  red_gold : Nat
  heroes : List HeroStatus := []
  towers : List TowerStatus := []
  minions : List MinionStatus := []
  monsters : List MonsterStatus := []
deriving DecidableEq, Repr

/-- The `MatchState` constructed at the top of `parse`. -/
def initState : MatchState :=
  { time_str := cs "00:00", blue_kills := 0, red_kills := 0,
    blue_gold := 0, red_gold := 0 }

/-- The `static_towers` dict: key `(team, lane, type)`, value `(x, y)`,
insertion-ordered with in-place overwrite like a Python dict. -/
abbrev Statics := List ((List Char × List Char × List Char) × (ℚ × ℚ))

/-- Assignment `static_towers[k] = v`. -/
def dictSet (d : Statics) (k : List Char × List Char × List Char) (v : ℚ × ℚ) :
    Statics :=
  if d.any (fun kv => kv.1 = k) then
    d.map (fun kv => if kv.1 = k then (k, v) else kv)
  else d ++ [(k, v)]

/-! ### The parser (`MatchParser` methods) -/

/-- Tower tiers, in the order of the `towers_map` list of
`_parse_tower_minion_line`. -/
def towersMapL : List (List Char) := [cs "一塔", cs "二塔", cs "高地塔"]

/-- The loop `for i, t in enumerate(towers_map): if t in
current_tower_name: frontier_idx = i; break`. -/
def firstTier (target : List Char) : Option (List Char) :=
  towersMapL.find? (fun t => isSubstr t target)

/-- The hero-listing section names of the main dispatch
(parser.py line 142). -/
def heroSections : List (List Char) :=
  [cs "玩家情况", cs "我方英雄状态", cs "视野可见的敌方英雄",
   cs "视野不可见的敌方英雄", cs "阵亡英雄"]

/-- A `re.search` with the coordinate pattern followed by the two
`float(group(i))` calls (hero positions, monster positions): `none` when
the pattern does not match; raises `ValueError` on a malformed numeral. -/
def parseCoordPair (s : List Char) : PRes (Option (ℚ × ℚ)) :=
  match research patCoord s with
  | some c =>
    PRes.bind (pyFloatE (c.headD [])) (fun x =>
      PRes.bind (pyFloatE (c.getD 1 [])) (fun y => .ok (some (x, y))))
  | none => .ok none

/-- The `HeroStatus` built by `_parse_hero_line`
(parser.py lines 249-332) from the line, the hyphen-split tag `parts`,
the already-read `parts[1]` and the already-parsed coordinates.  Python's
sequence of field mutations on the freshly constructed dataclass is
written as a single record whose fields carry the final value of each
mutation chain.  Note: line 303 of the source computes `items_match` but
never uses it; the used item extraction is the `split`-based one. -/
def heroRecord (line : List Char) (parts : List (List Char)) (player : List Char)
    (pos : Option (ℚ × ℚ)) : HeroStatus :=
  let team := if parts.headD [] = cs "我方" then cs "blue" else cs "red"
  let heroName := parts.getLastD []
  let role :=
    if isSubstr (cs "是") line && isSubstr (cs "路") line then
      match research patRole line with
      | some c => c.getD 1 []
      | none => []
    else []
  let level :=
    match research patLevel line with
    | some c => pyInt (c.headD [])
    | none => 1
  let dead := isSubstr (cs "已阵亡") line
  let rcap := research patRespawn line
  let respawn := if dead && rcap.isSome then pyInt ((rcap.getD []).headD []) else 0
  let hp : ℚ :=
    if dead then (if rcap.isSome then 0 else 1)
    else
      match research patHp line with
      | some c => (pyInt (c.headD []) : ℚ) / 100
      | none => 1
  let mana : ℚ :=
    if dead then 1
    else
      match research patMana line with
      | some c => mkRat (pyInt (c.headD [])) 100
      | none => 1
  let kda :=
    match research patKda line with
    | some c => (pyInt (c.getD 0 []), pyInt (c.getD 2 []), pyInt (c.getD 1 []))
    | none => ((0 : Nat), (0 : Nat), (0 : Nat))
  let gold :=
    match research patGold line with
    | some c => pyInt (c.headD [])
    | none => 0
  let items :=
    if isSubstr (cs "已出装备：") line then
      let afterLabel := (pySplitStr (cs "已出装备：") line).getD 1 []
      let firstPart := (pySplitStr (cs "，") afterLabel).headD []
      (pySplitStr (cs "、") firstPart).map pyStripWs
    else []
  let buffs := if isSubstr (cs "暴君buff") line then [cs "暴君"] else []
  let hasUlt := !(isSubstr (cs "没有大招") line)
  { name := heroName, player_name := player, team := team, role := role,
    level := level, hp_percent := hp, mana_percent := mana,
    is_dead := dead, respawn_time := respawn, position := pos,
    kda := kda, gold := gold, items := items, has_ult := hasUlt,
    buffs := buffs }

/-- Method `_parse_hero_line` (parser.py lines 235-334).  Raises (in source
order): `IndexError` from `parts[1]` when the tag has no hyphen,
`ValueError` from `float(...)` on a malformed coordinate. -/
def parseHeroLine (line : List Char) (ms : MatchState) : PRes MatchState :=
  match rematch patHeroTag line with
  | none => .ok ms
  | some tagCaps =>
    PRes.bind (pyIndex1 (pySplitStr (cs "-") (tagCaps.headD []))) (fun player =>
      PRes.bind (parseCoordPair line) (fun pos =>
        .ok { ms with heroes := ms.heroes ++
          [heroRecord line (pySplitStr (cs "-") (tagCaps.headD [])) player pos] }))

/-- The `context_team` of a `_parse_tower_minion_line` segment
(parser.py lines 369-372): the side owning the tower the segment
describes. -/
def segContextTeam (seg : List Char) : Option (List Char) :=
  match research patTowerCtx seg with
  | some c => if c.headD [] = cs "我方" then some (cs "blue") else some (cs "red")
  | none => none

/-- The `MinionStatus` built for a threatening wave
(parser.py lines 376-396): the owning side is the *inversion* of the
segment's tower-ownership context (default `red` when there is no
context), the lane is the prefix of the whole line before the first
full-width colon. -/
def minionRecord (line seg : List Char) (c : List (List Char)) (x y : ℚ) :
    MinionStatus :=
  { team :=
      match segContextTeam seg with
      | some t => if t = cs "blue" then cs "red" else cs "blue"
      | none => cs "red",
    lane := pyStripWs ((pySplitStr (cs "：") line).headD []),
    position := (x, y), count := pyInt (c.getD 3 []),
    hp_percent := mkRat (pyInt (c.getD 4 [])) 100, minion_type := c.getD 0 [] }

/-- The minion half of a `_parse_tower_minion_line` segment
(parser.py lines 369-396). -/
def minionPart (line seg : List Char) (ms : MatchState) : PRes MatchState :=
  if isSubstr (cs "最近的威胁兵线为") seg then
    match research patMinion seg with
    | some c =>
      PRes.bind (pyFloatE (c.getD 1 [])) (fun x =>
        PRes.bind (pyFloatE (c.getD 2 [])) (fun y =>
          .ok { ms with minions := ms.minions ++ [minionRecord line seg c x y] }))
    | none => .ok ms
  else .ok ms

/-- The `TowerStatus` built for a frontier tower
(parser.py lines 400-425) from the captures `c` of the tower regex, the
matched tier `t` and the parsed explicit coordinates. -/
def towerRecord (c : List (List Char)) (t : List Char) (x y : ℚ) : TowerStatus :=
  { team := if c.getD 0 [] = cs "我方" then cs "blue" else cs "red",
    lane := pyStripWs (c.getD 1 []), tower_type := t,
    hp_percent := mkRat (pyInt (c.getD 5 [])) 100, position := (x, y),
    is_destroyed := false }

/-- The tower half of a `_parse_tower_minion_line` segment
(parser.py lines 398-444).  Only the frontier tier is emitted; the
back-fill of interior tiers from the static pre-pass is commented out in
the source ("Disabled as per user request"), so `static_towers` is never
consumed. -/
def towerPart (seg : List Char) (ms : MatchState) : PRes MatchState :=
  match research patTowerFull seg with
  | some c =>
    match firstTier (pyStripWs (c.getD 2 [])) with
    | some t =>
      PRes.bind (pyFloatE (c.getD 3 [])) (fun x =>
        PRes.bind (pyFloatE (c.getD 4 [])) (fun y =>
          .ok { ms with towers := ms.towers ++ [towerRecord c t x y] }))
    | none => .ok ms
  | none => .ok ms

/-- One segment of `_parse_tower_minion_line`: the minion block runs
first, then the tower block (source order).  The `statics` dict is a
parameter of the Python method but — back-fill disabled — is unused. -/
def doTowerSeg (line seg : List Char) (statics : Statics) (ms : MatchState) :
    PRes MatchState :=
  (minionPart line seg ms).bind (towerPart seg)

/-- Method `_parse_tower_minion_line` (parser.py lines 336-444). -/
def parseTowerMinionLine (line : List Char) (ms : MatchState) (statics : Statics) :
    PRes MatchState :=
  foldPM (fun acc seg => doTowerSeg line seg statics acc) ms (pySplitStr (cs "；") line)

/-- The `known_monsters` list (parser.py line 181). -/
def knownMonsters : List (List Char) :=
  [cs "主宰", cs "暴君", cs "风暴龙王", cs "我方蓝buff", cs "敌方蓝buff",
   cs "我方红buff", cs "敌方红buff"]

/-- One segment of the 野怪状态 branch of `parse`
(parser.py lines 156-231). -/
def doMonsterSeg (ms : MatchState) (rawSeg : List Char) : PRes MatchState :=
  let seg := pyStrip (fun c => c = '。') (pyStripWs rawSeg)
  if seg = [] then .ok ms
  else if isSubstr (cs "：") seg &&
          (isSubstr (cs "不存在") seg || isSubstr (cs "存在") seg ||
           isSubstr (cs "血量") seg) then
    match knownMonsters.find? (fun n => isSubstr n seg) with
    | some mname =>
      let exFlag :=
        if isSubstr (cs "不存在") seg then false
        else if isSubstr (cs "存在") seg || isSubstr (cs "血量") seg then true
        else false
      let respawn :=
        if isSubstr (cs "不存在") seg then
          match research patMonRespawn seg with
          | some c => some (pyInt (c.headD []))
          | none => none
        else none
      PRes.bind (parseCoordPair seg) (fun coord =>
        let hp : ℚ :=
          match research patMonHp seg with
          | some c => mkRat (pyInt (c.headD [])) 100
          | none => if exFlag then 1 else 0
        .ok { ms with monsters := ms.monsters ++
          [{ name := mname, position := coord.getD (0, 0), hp_percent := hp,
             exists_flag := exFlag, description := seg, respawn_time := respawn }] })
    | none => .ok ms
  else .ok ms

/-- The 整体情况 branch of `parse` (parser.py lines 115-120). -/
def overallLine (line : List Char) (ms : MatchState) : PRes MatchState :=
  if isSubstr (cs "游戏阶段") line then
    match research patTime line with
    | some c => .ok { ms with time_str := c.headD [] ++ cs ":" ++ zfill2 (c.getD 1 []) }
    | none => .ok ms
  else .ok ms

/-- Expression `int(re.search(r'\d+', val_str).group())`: `AttributeError` when the
search fails (calling `.group()` on `None`). -/
def searchDigitsE (s : List Char) : PRes Nat :=
  match research patDigits s with
  | some c => .ok (pyInt (c.headD []))
  | none => .err .attributeError

/-- Expression `int(re.search(r'\d+', p.split('：')[1]).group())` for one sub-clause
`p`: `IndexError` when `p` has no full-width colon, `AttributeError` when
the slice after the colon has no digit run. -/
def clauseValue (p : List Char) : PRes Nat :=
  PRes.bind (pyIndex1 (pySplitStr (cs "：") p)) searchDigitsE

/-- The 总体态势 branch of `parse` (parser.py lines 122-140). -/
def statLine (line : List Char) (ms : MatchState) : PRes MatchState :=
  if isSubstr (cs "我方人头数") line then
    foldPM (fun acc p =>
      if isSubstr (cs "我方人头数") p then
        PRes.bind (clauseValue p) (fun d => .ok { acc with blue_kills := d })
      else if isSubstr (cs "敌方人头数") p then
        PRes.bind (clauseValue p) (fun d => .ok { acc with red_kills := d })
      else .ok acc) ms (pySplitStr (cs "，") line)
  else if isSubstr (cs "我方总经济") line then
    foldPM (fun acc p =>
      if isSubstr (cs "我方总经济") p then
        PRes.bind (clauseValue p) (fun d => .ok { acc with blue_gold := d })
      else if isSubstr (cs "敌方总经济") p then
        PRes.bind (clauseValue p) (fun d => .ok { acc with red_gold := d })
      else .ok acc) ms (pySplitStr (cs "，") line)
  else .ok ms

/-- Does the stripped line have the `[...]` shape of the main pass's
section switch (`startswith('[') and endswith(']')`)? -/
def bracketShape (line : List Char) : Bool :=
  (cs "[").isPrefixOf line && (cs "]").isSuffixOf line

/-- The per-line dispatch of the main pass (parser.py lines 115-231),
for an already stripped, non-empty, non-bracket line. -/
def doLine (sec : Option (List Char)) (line : List Char) (statics : Statics)
    (ms : MatchState) : PRes MatchState :=
  if sec = some (cs "整体情况") then overallLine line ms
  else if sec = some (cs "总体态势") then statLine line ms
  else if (match sec with | some s => heroSections.contains s | none => false) then
    (if (cs "<").isPrefixOf line then parseHeroLine line ms else .ok ms)
  else if sec = some (cs "防御塔与兵线状态") then parseTowerMinionLine line ms statics
  else if sec = some (cs "野怪状态") then
    foldPM doMonsterSeg ms (pySplitStr (cs "；") line)
  else .ok ms

/-- The main pass of `parse` (parser.py lines 105-233): walks lines,
tracking the current section.  A stripped line that starts with `[` and
ends with `]` switches the section to the text between the outer
brackets; an empty line is skipped; every other line is handed to
`doLine` under the *unchanged* current section. -/
def mainPass (statics : Statics) : List (List Char) → Option (List Char) →
    MatchState → PRes MatchState
  | [], _, ms => .ok ms
  | l :: rest, sec, ms =>
    let line := pyStripWs l
    if line = [] then mainPass statics rest sec ms
    else if bracketShape line then
      mainPass statics rest (some ((line.drop 1).dropLast)) ms
    else (doLine sec line statics ms).bind (mainPass statics rest sec)

/-- One 地图信息 line of the first pass (parser.py lines 93-103):
`re.findall` over the raw line, then the dict updates.  `float` on the
captured `[\d.-]+` runs can raise `ValueError`. -/
def staticLine (line : List Char) (st : Statics) : PRes Statics :=
  foldPM (fun acc c =>
      PRes.bind (pyFloatE (c.getD 3 [])) (fun x =>
        PRes.bind (pyFloatE (c.getD 4 [])) (fun y =>
          .ok (dictSet acc
            (if c.headD [] = cs "蓝方" then cs "blue" else cs "red",
             c.getD 1 [], c.getD 2 [])
            (x, y)))))
    st (refindall patStatic line)

/-- The first pass of `parse` (parser.py lines 84-103): harvest static
tower coordinates from the 地图信息 section. -/
def firstPass : List (List Char) → Option (List Char) → Statics → PRes Statics
  | [], _, st => .ok st
  | l :: rest, sec, st =>
    let stripped := pyStripWs l
    if (cs "[地图信息]").isPrefixOf stripped then
      firstPass rest (some (cs "地图信息")) st
    else if (cs "[").isPrefixOf stripped then firstPass rest none st
    else if sec = some (cs "地图信息") then
      match staticLine l st with
      | .ok st' => firstPass rest sec st'
      | .err e => .err e
    else firstPass rest sec st

/-- Method `MatchParser.parse` (parser.py lines 63-233): split on newlines, run
the static pre-pass in full, then the main pass. -/
def parse (text : String) : PRes MatchState :=
  let lines := pySplitStr (cs "\n") text.data
  (firstPass lines none []).bind (fun statics => mainPass statics lines none initState)

/-! ### The renderer slice relevant to claim C2 -/

/-- The attribute names the `HeroStatus` dataclass declares
(parser.py lines 5-21). -/
def heroStatusFieldNames : List String :=
  ["name", "player_name", "team", "role", "level", "hp_percent", "mana_percent",
   "is_dead", "respawn_time", "position", "kda", "gold", "items", "has_ult", "buffs"]

/-- Python attribute access for the Bool-valued attributes of a
`HeroStatus` instance: any attribute the dataclass does not declare
raises `AttributeError`. -/
def heroGetBoolAttr (h : HeroStatus) (attr : String) : PRes Bool :=
  if attr = "is_dead" then .ok h.is_dead
  else if attr = "has_ult" then .ok h.has_ult
  else .err .attributeError

/-- renderer.py line 403 (`_draw_hero_card`):
`if not hero.is_visible and self.invisible_icon:` — the visibility read
performed when drawing a hero side card. -/
def drawHeroCardVisibleRead (h : HeroStatus) : PRes Bool :=
  heroGetBoolAttr h "is_visible"

/-! ### Helper lemmas -/

/-- Inversion of a successful `float(...)`. -/
theorem pyFloatE_ok {s : List Char} {q : ℚ} (h : pyFloatE s = .ok q) :
    pyFloat s = some q := by
  unfold pyFloatE at h
  split at h
  · rename_i q' heq
    injection h with h'
    subst h'
    exact heq
  · exact absurd h (by simp)

/-- Success inversion for `_parse_hero_line`: when the call succeeds and
appends a hero, that hero is the `heroRecord` of the line. -/
theorem parseHeroLine_ok_append (line : List Char) (ms ms' : MatchState) (h : HeroStatus)
    (hp : parseHeroLine line ms = .ok ms') (hh : ms'.heroes = ms.heroes ++ [h]) :
    ∃ tagCaps player pos,
      rematch patHeroTag line = some tagCaps ∧
      h = heroRecord line (pySplitStr (cs "-") (tagCaps.headD [])) player pos := by
  unfold parseHeroLine at hp
  split at hp
  · injection hp with hq
    subst hq
    simp at hh
  · rename_i tagCaps hm
    cases hq : pyIndex1 (pySplitStr (cs "-") (tagCaps.headD [])) with
    | err e =>
        rw [hq] at hp
        simp only [PRes.bind] at hp
        simp at hp
    | ok player =>
        rw [hq] at hp
        simp only [PRes.bind] at hp
        cases hc : parseCoordPair line with
        | err e =>
            rw [hc] at hp
            simp only [PRes.bind] at hp
            simp at hp
        | ok pos =>
            rw [hc] at hp
            simp only [PRes.bind] at hp
            injection hp with hp'
            subst hp'
            simp only [MatchState.heroes] at hh
            have hcancel : h = heroRecord line (pySplitStr (cs "-") (tagCaps.headD [])) player pos := by
              simpa using hh.symm
            exact ⟨tagCaps, player, pos, hm, hcancel⟩

/-- The minion half of a tower/minion segment never touches the towers
collection. -/
theorem minionPart_towers (line seg : List Char) (ms ms' : MatchState)
    (hm : minionPart line seg ms = .ok ms') : ms'.towers = ms.towers := by
  unfold minionPart at hm
  split at hm
  · split at hm
    · rename_i c heq
      cases hx : pyFloatE (c.getD 1 []) with
      | err e => rw [hx] at hm; simp [PRes.bind] at hm
      | ok qx =>
        rw [hx] at hm
        simp only [PRes.bind] at hm
        cases hy : pyFloatE (c.getD 2 []) with
        | err e => rw [hy] at hm; simp [PRes.bind] at hm
        | ok qy =>
          rw [hy] at hm
          simp only [PRes.bind] at hm
          injection hm with hm'
          subst hm'
          rfl
    · injection hm with hm'
      subst hm'
      rfl
  · injection hm with hm'
    subst hm'
    rfl

/-- The tower half of a tower/minion segment never touches the minions
collection. -/
theorem towerPart_minions (seg : List Char) (ms ms' : MatchState)
    (hm : towerPart seg ms = .ok ms') : ms'.minions = ms.minions := by
  unfold towerPart at hm
  split at hm
  · rename_i c heq
    split at hm
    · rename_i t htier
      cases hx : pyFloatE (c.getD 3 []) with
      | err e => rw [hx] at hm; simp [PRes.bind] at hm
      | ok qx =>
        rw [hx] at hm
        simp only [PRes.bind] at hm
        cases hy : pyFloatE (c.getD 4 []) with
        | err e => rw [hy] at hm; simp [PRes.bind] at hm
        | ok qy =>
          rw [hy] at hm
          simp only [PRes.bind] at hm
          injection hm with hm'
          subst hm'
          rfl
    · injection hm with hm'
      subst hm'
      rfl
  · injection hm with hm'
    subst hm'
    rfl

/-! ### Claim C1 -/

/-- Claim C1 (parser totality) fails on the code: a 总体态势 line whose
kill-count clause has no digits after the colon makes `parse` raise
`AttributeError` (`re.search(r'\d+', 'x')` is `None`, and `.group()` on
`None` raises), instead of returning a `MatchState`. -/
theorem C1_parse_raises_on_malformed_kill_count :
    parse "[总体态势]\n我方人头数：x" = .err .attributeError := by decide

/-! ### Claim C2 -/

/-- Claim C2 fails on the code: the `HeroStatus` dataclass declares no
`is_visible` attribute and `parse` never sets one, so the visibility
read of `_draw_hero_card` (renderer.py line 403) raises
`AttributeError` for every hero produced by `parse` — here shown for
the hero parsed from a minimal hero section. -/
theorem C2_visibility_read_fails :
    "is_visible" ∉ heroStatusFieldNames ∧
    (match parse "[玩家情况]\n<我方-玩家-廉颇>" with
     | .ok st => st.heroes.map drawHeroCardVisibleRead
     | .err _ => []) = [.err .attributeError] :=
  ⟨by decide, by decide⟩

/-! ### Claim C3 -/

/-- Claim C3 counterexample: the dead-hero line `<我方-玩家-廉颇>已阵亡`
(no respawn time stated) yields a hero with `is_dead = true` and
`hp_percent = 1 ≠ 0`, so the claimed dichotomy
{alive with hp > 0} xor {dead with hp = 0} fails. -/
theorem C3_cex_dead_hero_keeps_full_hp :
    (match parse "[阵亡英雄]\n<我方-玩家-廉颇>已阵亡" with
     | .ok st => st.heroes.map (fun h => (h.is_dead, h.hp_percent))
     | .err _ => []) = [(true, (1 : ℚ))] ∧ ¬((1 : ℚ) = 0) :=
  ⟨by decide, by decide⟩

/-- Claim C3 (amended): for every hero emitted by a hero line, the
respawn countdown is non-zero only when the hero is dead; a dead hero's
hp is 0 exactly when the line also states a respawn time
(`还有N秒复活`), and otherwise keeps the default 1. -/
theorem C3_respawn_and_death (line : List Char) (ms ms' : MatchState) (h : HeroStatus)
    (hp : parseHeroLine line ms = .ok ms') (hh : ms'.heroes = ms.heroes ++ [h]) :
    (h.respawn_time ≠ 0 → h.is_dead = true) ∧
    (h.is_dead = true →
      ((research patRespawn line).isSome = true → h.hp_percent = 0) ∧
      (research patRespawn line = none → h.hp_percent = 1)) := by
  obtain ⟨tagCaps, player, pos, _, hrec⟩ := parseHeroLine_ok_append line ms ms' h hp hh
  subst hrec
  constructor
  · intro hr
    by_contra hd
    rw [Bool.not_eq_true] at hd
    simp only [heroRecord] at hd
    simp [heroRecord, hd] at hr
  · intro hd
    simp only [heroRecord] at hd
    refine ⟨fun hs => ?_, fun hn => ?_⟩
    · simp [heroRecord, hd, hs]
    · simp [heroRecord, hd, hn]

/-- The input of the C3 witness. -/
def c3line : List Char := cs "<敌方-玩家-妲己>已阵亡，还有30秒复活"

/-- The hero parsed from `c3line`. -/
def c3hero : HeroStatus :=
  { name := cs "妲己", player_name := cs "玩家", team := cs "red", role := [],
    level := 1, hp_percent := 0, mana_percent := 1, is_dead := true,
    respawn_time := 30, position := none, kda := (0, 0, 0), gold := 0,
    items := [], has_ult := true, buffs := [] }

/-- The state produced from `c3line`. -/
def c3state : MatchState := { initState with heroes := [c3hero] }

/-- Concrete instance of `C3_respawn_and_death`. -/
theorem C3_witness :
    parseHeroLine c3line initState = .ok c3state ∧
    c3state.heroes = initState.heroes ++ [c3hero] ∧
    ((c3hero.respawn_time ≠ 0 → c3hero.is_dead = true) ∧
     (c3hero.is_dead = true →
       ((research patRespawn c3line).isSome = true → c3hero.hp_percent = 0) ∧
       (research patRespawn c3line = none → c3hero.hp_percent = 1))) :=
  ⟨by decide, by decide,
   C3_respawn_and_death c3line initState c3state c3hero (by decide) (by decide)⟩

/-! ### Claim C4 -/

/-- Claim C4 (ultimate-ready default law): every hero stored from a hero
line has `has_ult` true iff the line does not contain the explicit
negative phrase 没有大招, whatever the surrounding text. -/
theorem C4_ult_default_law (line : List Char) (ms ms' : MatchState) (h : HeroStatus)
    (hp : parseHeroLine line ms = .ok ms') (hh : ms'.heroes = ms.heroes ++ [h]) :
    h.has_ult = !(isSubstr (cs "没有大招") line) := by
  obtain ⟨tagCaps, player, pos, _, hrec⟩ := parseHeroLine_ok_append line ms ms' h hp hh
  subst hrec
  simp [heroRecord]

/-- The input of the C4 witness. -/
def c4line : List Char := cs "<我方-玩家-廉颇>14级，没有大招"

/-- The hero parsed from `c4line`. -/
def c4hero : HeroStatus :=
  { name := cs "廉颇", player_name := cs "玩家", team := cs "blue", role := [],
    level := 14, hp_percent := 1, mana_percent := 1, is_dead := false,
    respawn_time := 0, position := none, kda := (0, 0, 0), gold := 0,
    items := [], has_ult := false, buffs := [] }

/-- The state produced from `c4line`. -/
def c4state : MatchState := { initState with heroes := [c4hero] }

/-- Concrete instance of `C4_ult_default_law`: the spec's scenario line
`<我方-玩家-廉颇> ... 14级，没有大招` stores `has_ult = false`. -/
theorem C4_witness :
    parseHeroLine c4line initState = .ok c4state ∧
    c4state.heroes = initState.heroes ++ [c4hero] ∧
    c4hero.has_ult = !(isSubstr (cs "没有大招") c4line) :=
  ⟨by decide, by decide,
   C4_ult_default_law c4line initState c4state c4hero (by decide) (by decide)⟩

/-! ### Claim C5 -/

/-- Claim C5 (tower frontier law): for a segment matched by the tower
regex, if the push-target matches a known tier label then exactly one
`TowerStatus` is appended — with that tier, the segment's explicit
reported coordinates and hp (`towerRecord`) — and if the target matches
no known tier label, no tower is appended. -/
theorem C5_tower_frontier_law (line seg : List Char) (statics : Statics)
    (ms ms' : MatchState) (caps : List (List Char))
    (h2 : research patTowerFull seg = some caps)
    (hr : doTowerSeg line seg statics ms = .ok ms') :
    (∀ t, firstTier (pyStripWs (caps.getD 2 [])) = some t →
       ∃ qx qy, pyFloat (caps.getD 3 []) = some qx ∧ pyFloat (caps.getD 4 []) = some qy ∧
         ms'.towers = ms.towers ++ [towerRecord caps t qx qy]) ∧
    (firstTier (pyStripWs (caps.getD 2 [])) = none → ms'.towers = ms.towers) := by
  unfold doTowerSeg at hr
  cases hmp : minionPart line seg ms with
  | err e => rw [hmp] at hr; simp [PRes.bind] at hr
  | ok ms1 =>
    rw [hmp] at hr
    simp only [PRes.bind] at hr
    have htow : ms1.towers = ms.towers := minionPart_towers line seg ms ms1 hmp
    unfold towerPart at hr
    split at hr
    · rename_i c heq
      have hc : c = caps := by
        rw [heq] at h2
        exact Option.some.inj h2
      subst hc
      split at hr
      · rename_i t' htier
        cases hx : pyFloatE (c.getD 3 []) with
        | err e => rw [hx] at hr; simp [PRes.bind] at hr
        | ok qx =>
          rw [hx] at hr
          simp only [PRes.bind] at hr
          cases hy : pyFloatE (c.getD 4 []) with
          | err e => rw [hy] at hr; simp [PRes.bind] at hr
          | ok qy =>
            rw [hy] at hr
            simp only [PRes.bind] at hr
            injection hr with hr'
            subst hr'
            constructor
            · intro t ht
              have hts : t = t' := by
                rw [htier] at ht
                exact (Option.some.inj ht).symm
              subst hts
              exact ⟨qx, qy, pyFloatE_ok hx, pyFloatE_ok hy, by simp [htow]⟩
            · intro hnone
              rw [htier] at hnone
              exact absurd hnone (by simp)
      · rename_i htier
        injection hr with hr'
        subst hr'
        constructor
        · intro t ht
          rw [htier] at ht
          exact absurd ht (by simp)
        · intro _
          exact htow
    · rename_i heq
      rw [heq] at h2
      exact absurd h2 (by simp)

/-- The segment of the C5 witness (the spec's §8 scenario). -/
def c5seg : List Char := cs "我方上路防御塔被推到上路二塔，坐标（-30.0，10.0），剩余血量40%"

/-- The captures of the tower regex on `c5seg`. -/
def c5caps : List (List Char) :=
  [cs "我方", cs "上路", cs "上路二塔", cs "-30.0", cs "10.0", cs "40"]

/-- The state produced from `c5seg`. -/
def c5state : MatchState :=
  { initState with towers :=
      [{ team := cs "blue", lane := cs "上路", tower_type := cs "二塔",
         hp_percent := mkRat 40 100, position := (-30, 10), is_destroyed := false }] }

/-- Concrete instance of `C5_tower_frontier_law`: the spec's scenario
segment yields exactly one tower — blue / 上路 / 二塔 / hp 40% at
(-30, 10). -/
theorem C5_witness :
    research patTowerFull c5seg = some c5caps ∧
    doTowerSeg c5seg c5seg [] initState = .ok c5state ∧
    firstTier (pyStripWs (c5caps.getD 2 [])) = some (cs "二塔") ∧
    (∃ qx qy, pyFloat (c5caps.getD 3 []) = some qx ∧ pyFloat (c5caps.getD 4 []) = some qy ∧
       c5state.towers = initState.towers ++ [towerRecord c5caps (cs "二塔") qx qy]) :=
  ⟨by decide, by decide, by decide,
   (C5_tower_frontier_law c5seg c5seg [] initState c5state c5caps
     (by decide) (by decide)).1 (cs "二塔") (by decide)⟩

/-! ### Claim C6 -/

/-- Claim C6 (minion-wave ownership inversion): in a segment whose
tower-ownership context captures 我方 the recorded wave's side is `red`
(the enemy), and in a segment whose context captures 敌方 it is `blue`
(the ally) — the stored side is the inversion of the context side. -/
theorem C6_minion_ownership_inversion (line seg : List Char) (statics : Statics)
    (ms ms' : MatchState) (own ctxLane : List Char) (caps : List (List Char))
    (h1 : isSubstr (cs "最近的威胁兵线为") seg = true)
    (h2 : research patTowerCtx seg = some [own, ctxLane])
    (h3 : research patMinion seg = some caps)
    (hr : doTowerSeg line seg statics ms = .ok ms') :
    ∃ qx qy, pyFloat (caps.getD 1 []) = some qx ∧ pyFloat (caps.getD 2 []) = some qy ∧
      ms'.minions = ms.minions ++
        [{ team := if own = cs "我方" then cs "red" else cs "blue",
           lane := pyStripWs ((pySplitStr (cs "：") line).headD []),
           position := (qx, qy), count := pyInt (caps.getD 3 []),
           hp_percent := mkRat (pyInt (caps.getD 4 [])) 100,
           minion_type := caps.getD 0 [] }] := by
  unfold doTowerSeg at hr
  cases hmp : minionPart line seg ms with
  | err e => rw [hmp] at hr; simp [PRes.bind] at hr
  | ok ms1 =>
    rw [hmp] at hr
    simp only [PRes.bind] at hr
    have hmin : ms'.minions = ms1.minions := towerPart_minions seg ms1 ms' hr
    unfold minionPart at hmp
    split at hmp
    · split at hmp
      · rename_i c heq
        have hc : c = caps := by
          rw [heq] at h3
          exact Option.some.inj h3
        subst hc
        cases hx : pyFloatE (c.getD 1 []) with
        | err e => rw [hx] at hmp; simp [PRes.bind] at hmp
        | ok qx =>
          rw [hx] at hmp
          simp only [PRes.bind] at hmp
          cases hy : pyFloatE (c.getD 2 []) with
          | err e => rw [hy] at hmp; simp [PRes.bind] at hmp
          | ok qy =>
            rw [hy] at hmp
            simp only [PRes.bind] at hmp
            injection hmp with hmp'
            subst hmp'
            refine ⟨qx, qy, pyFloatE_ok hx, pyFloatE_ok hy, ?_⟩
            rw [hmin]
            simp only [minionRecord, segContextTeam, h2]
            by_cases hOwn : own = cs "我方" <;> simp [hOwn]
      · rename_i heq
        rw [heq] at h3
        exact absurd h3 (by simp)
    · rename_i hcond
      exact absurd h1 (by simpa using hcond)

/-- The line of the C6 witness: one segment carrying both an ally-tower
push report and a threatening wave. -/
def c6line : List Char :=
  cs "上路：我方上路防御塔被推到上路一塔，坐标（-51.0，21.0），剩余血量31%，最近的威胁兵线为敌方普通小兵，坐标（-50.0，20.0），数量6，血量80%"

/-- The captures of the minion regex on `c6line`. -/
def c6caps : List (List Char) :=
  [cs "敌方普通小兵", cs "-50.0", cs "20.0", cs "6", cs "80"]

/-- The state produced from `c6line` (the frontier tower and the
inverted-side wave). -/
def c6state : MatchState :=
  { initState with
    towers :=
      [{ team := cs "blue", lane := cs "上路", tower_type := cs "一塔",
         hp_percent := mkRat 31 100, position := (-51, 21), is_destroyed := false }],
    minions :=
      [{ team := cs "red", lane := cs "上路", position := (-50, 20), count := 6,
         hp_percent := mkRat 80 100, minion_type := cs "敌方普通小兵" }] }

/-- Concrete instance of `C6_minion_ownership_inversion`: the segment's
context is 我方 (ally tower) and the stored wave side is `red`. -/
theorem C6_witness :
    isSubstr (cs "最近的威胁兵线为") c6line = true ∧
    research patTowerCtx c6line = some [cs "我方", cs "上路"] ∧
    research patMinion c6line = some c6caps ∧
    (∃ ms', doTowerSeg c6line c6line [] initState = .ok ms' ∧
      ∃ qx qy, pyFloat (c6caps.getD 1 []) = some qx ∧ pyFloat (c6caps.getD 2 []) = some qy ∧
        ms'.minions = initState.minions ++
          [{ team := if (cs "我方") = cs "我方" then cs "red" else cs "blue",
             lane := pyStripWs ((pySplitStr (cs "：") c6line).headD []),
             position := (qx, qy), count := pyInt (c6caps.getD 3 []),
             hp_percent := mkRat (pyInt (c6caps.getD 4 [])) 100,
             minion_type := c6caps.getD 0 [] }]) :=
  ⟨by decide, by decide, by decide,
   ⟨c6state, by decide,
    C6_minion_ownership_inversion c6line c6line [] initState c6state
      (cs "我方") (cs "上路") c6caps (by decide) (by decide) (by decide)
      (by decide)⟩⟩

/-! ### Claim C7 -/

/-- Claim C7 counterexample: after the line `[x` (bracket-started but
not bracket-terminated) the active section is *not* reset — the
following 游戏阶段 line is still attributed to 整体情况 and sets the
clock to `3:20`; under the claim's reset semantics it would stay
`00:00`. -/
theorem C7_cex_no_section_reset :
    (match parse "[整体情况]\n[x\n游戏阶段3分20秒" with
     | .ok st => st.time_str
     | .err _ => []) = cs "3:20" ∧ cs "3:20" ≠ cs "00:00" :=
  ⟨by decide, by decide⟩

/-- Claim C7 (amended): in the main pass, a stripped line that starts
with `[` and ends with `]` switches the section to the text between the
outer brackets; every other non-empty line — including one that starts
with `[` but does not end with `]` — leaves the active section
unchanged and is processed under it. -/
theorem C7_section_tracking (l : List Char) (rest : List (List Char))
    (sec : Option (List Char)) (statics : Statics) (ms : MatchState)
    (h1 : pyStripWs l ≠ []) :
    (bracketShape (pyStripWs l) = false →
       mainPass statics (l :: rest) sec ms =
         PRes.bind (doLine sec (pyStripWs l) statics ms) (mainPass statics rest sec)) ∧
    (bracketShape (pyStripWs l) = true →
       mainPass statics (l :: rest) sec ms =
         mainPass statics rest (some (((pyStripWs l).drop 1).dropLast)) ms) := by
  constructor <;> intro hb <;> simp [mainPass, h1, hb]

/-- Concrete instance of `C7_section_tracking` at the non-bracket-shaped
line `[x`. -/
theorem C7_witness :
    pyStripWs (cs "[x") ≠ [] ∧ bracketShape (pyStripWs (cs "[x")) = false ∧
    mainPass [] [cs "[x"] (some (cs "整体情况")) initState =
      PRes.bind (doLine (some (cs "整体情况")) (pyStripWs (cs "[x")) [] initState)
        (mainPass [] [] (some (cs "整体情况"))) :=
  ⟨by decide, by decide,
   (C7_section_tracking (cs "[x") [] (some (cs "整体情况")) [] initState (by decide)).1
     (by decide)⟩

/-! ### Claim C8 -/

/-- Claim C8 counterexample: two inputs that differ only in the static
tower coordinates of the 地图信息 section (harvested by the pre-pass,
as the differing `firstPass` results show) parse to the *same*
`MatchState` — the harvested coordinates are never consumed by the
tower records of the main pass, because the back-fill of non-frontier
tiers is disabled. -/
theorem C8_cex_statics_not_consumed :
    parse "[地图信息]\n我方防御塔坐标为：蓝方上路一塔(-52.4, 28.7)、蓝方上路二塔(-40.0, 20.0)\n[防御塔与兵线状态]\n上路：我方上路防御塔被推到上路一塔，坐标（-51.8，21.2），剩余血量31%" =
      parse "[地图信息]\n我方防御塔坐标为：蓝方上路一塔(-52.4, 28.7)、蓝方上路二塔(-41.0, 19.0)\n[防御塔与兵线状态]\n上路：我方上路防御塔被推到上路一塔，坐标（-51.8，21.2），剩余血量31%" ∧
    firstPass (pySplitStr (cs "\n")
        (cs "[地图信息]\n我方防御塔坐标为：蓝方上路一塔(-52.4, 28.7)、蓝方上路二塔(-40.0, 20.0)\n[防御塔与兵线状态]\n上路：我方上路防御塔被推到上路一塔，坐标（-51.8，21.2），剩余血量31%")) none [] ≠
      firstPass (pySplitStr (cs "\n")
        (cs "[地图信息]\n我方防御塔坐标为：蓝方上路一塔(-52.4, 28.7)、蓝方上路二塔(-41.0, 19.0)\n[防御塔与兵线状态]\n上路：我方上路防御塔被推到上路一塔，坐标（-51.8，21.2），剩余血量31%")) none [] :=
  ⟨by decide, by decide⟩

/-- Claim C8 (amended): the pre-pass harvests static tower coordinates
before the main pass runs, but the tower records of the main pass never
consume them — `_parse_tower_minion_line` is invariant in its
`static_towers` argument (the back-fill is disabled in the source). -/
theorem C8_statics_never_consumed (line : List Char) (ms : MatchState)
    (s1 s2 : Statics) :
    parseTowerMinionLine line ms s1 = parseTowerMinionLine line ms s2 := rfl

/-! ### Claim C9 -/

/-- Claim C9 counterexample: `游戏阶段3分4秒` yields the clock string
`3:04`, not the zero-padded `03:04` the claim's `MM:SS` format requires
— only the seconds are zero-padded. -/
theorem C9_cex_minutes_not_padded :
    (match parse "[整体情况]\n游戏阶段3分4秒" with
     | .ok st => st.time_str
     | .err _ => []) = cs "3:04" ∧ cs "3:04" ≠ cs "03:04" :=
  ⟨by decide, by decide⟩

/-- Claim C9 (amended): for every 整体情况 line containing 游戏阶段
whose minutes分seconds秒 pattern captures minute digits `mm` and second
digits `ss`, the stored clock is `mm ++ ":" ++ zfill2 ss` — minutes as
written, seconds zero-padded to two digits. -/
theorem C9_clock_format (line : List Char) (ms : MatchState) (mm ss : List Char)
    (h1 : isSubstr (cs "游戏阶段") line = true)
    (h2 : research patTime line = some [mm, ss]) :
    overallLine line ms = .ok { ms with time_str := mm ++ cs ":" ++ zfill2 ss } := by
  simp [overallLine, h1, h2]

/-- Concrete instance of `C9_clock_format`: the spec's scenario
`游戏阶段...13分4秒` stores the clock `13:04`. -/
theorem C9_witness :
    isSubstr (cs "游戏阶段") (cs "游戏阶段进行到13分4秒") = true ∧
    research patTime (cs "游戏阶段进行到13分4秒") = some [cs "13", cs "4"] ∧
    overallLine (cs "游戏阶段进行到13分4秒") initState =
      .ok { initState with time_str := cs "13" ++ cs ":" ++ zfill2 (cs "4") } :=
  ⟨by decide, by decide,
   C9_clock_format (cs "游戏阶段进行到13分4秒") initState (cs "13") (cs "4")
     (by decide) (by decide)⟩

/-! ### Claim C10 -/

/-- Claim C10 (KDA reordering): for every hero line whose KDA phrase
captures, in source order, kills `k`, assists `a`, deaths `d`, the
stored triple is (kills, deaths, assists). -/
theorem C10_kda_reorder (line : List Char) (ms ms' : MatchState) (h : HeroStatus)
    (k a d : List Char)
    (hp : parseHeroLine line ms = .ok ms') (hh : ms'.heroes = ms.heroes ++ [h])
    (hk : research patKda line = some [k, a, d]) :
    h.kda = (pyInt k, pyInt d, pyInt a) := by
  obtain ⟨tagCaps, player, pos, _, hrec⟩ := parseHeroLine_ok_append line ms ms' h hp hh
  subst hrec
  simp [heroRecord, hk]

/-- The input of the C10 witness. -/
def c10line : List Char := cs "<我方-玩家-廉颇>击杀：3，助攻：5，死亡：2"

/-- The hero parsed from `c10line`. -/
def c10hero : HeroStatus :=
  { name := cs "廉颇", player_name := cs "玩家", team := cs "blue", role := [],
    level := 1, hp_percent := 1, mana_percent := 1, is_dead := false,
    respawn_time := 0, position := none, kda := (3, 2, 5), gold := 0,
    items := [], has_ult := true, buffs := [] }

/-- The state produced from `c10line`. -/
def c10state : MatchState := { initState with heroes := [c10hero] }

/-- Concrete instance of `C10_kda_reorder`: source order
kills 3 / assists 5 / deaths 2 is stored as (3, 2, 5). -/
theorem C10_witness :
    parseHeroLine c10line initState = .ok c10state ∧
    c10state.heroes = initState.heroes ++ [c10hero] ∧
    research patKda c10line = some [cs "3", cs "5", cs "2"] ∧
    c10hero.kda = (pyInt (cs "3"), pyInt (cs "2"), pyInt (cs "5")) :=
  ⟨by decide, by decide, by decide,
   C10_kda_reorder c10line initState c10state c10hero (cs "3") (cs "5") (cs "2")
     (by decide) (by decide) (by decide)⟩

end HokViz
